import Mathlib

/-!
Verification of the rock-paper-scissors single-page client
(src/src/App.tsx, src/src/types.ts).

The embedding models the React component logic as pure state-transition
functions: the network is an injected oracle (the outcome of the playGame
call and the joint outcome of the Promise.all history/stats fetch), the
browser localStorage is an explicit association list, and JS numbers held
in PlayerStats are modelled as integers.  Math.round over JS floats is
modelled as the exact half-up rounding of rational arithmetic.
-/

namespace RPS

/-- Choice enumeration (src/src/types.ts line 1). -/
inductive Choice where
  | rock
  | paper
  | scissors
deriving DecidableEq, Repr

/-- Result enumeration (src/src/types.ts line 2). -/
inductive Result where
  | win
  | lose
  | draw
deriving DecidableEq, Repr

/-- GameRecord (src/src/types.ts lines 4-14).  The id field is optional in
the TypeScript interface. -/
structure GameRecord where
  id : Option String
  playerId : String
  playerName : String
  playerChoice : Choice
  aiChoice : Choice
  result : Result
  timestamp : String
  playerEmoji : String
  aiEmoji : String
deriving DecidableEq, Repr

/-- PlayerStats (src/src/types.ts lines 16-21).  JS numbers modelled as
integers; the client performs no schema validation, so every integer value
is representable. -/
structure PlayerStats where
  wins : Int
  losses : Int
  draws : Int
  total : Int
deriving DecidableEq, Repr

/-- PlayResponse (src/src/types.ts lines 23-29). -/
structure PlayResponse where
  success : Bool
  playerChoice : Choice
  aiChoice : Choice
  result : Result
  record : GameRecord
deriving DecidableEq, Repr

/-- The RESULT_LABELS lookup table (src/src/App.tsx lines 19-23). -/
def RESULT_LABELS : Result → String
  | Result.win => "You Win!"
  | Result.lose => "You Lose!"
  | Result.draw => "Draw!"

/-- JS String.prototype.trim modelled on the character list: drop
whitespace from both ends.  (Char.isWhitespace covers space, tab, CR, LF;
the exotic Unicode whitespace JS additionally strips is not relevant to
the properties proved here.) -/
def jsTrim (s : String) : String :=
  ⟨((s.data.dropWhile Char.isWhitespace).reverse.dropWhile Char.isWhitespace).reverse⟩

/-- LoginPage.handleSubmit (src/src/App.tsx lines 30-42): trim the entered
name, reject with a validation message when the trimmed length is below 2
or above 20, otherwise hand the trimmed name to the login continuation.
String length is the number of characters (JS counts UTF-16 units; the
difference does not matter for the length-window property). -/
def handleSubmit (name : String) : Except String String :=
  let trimmedName := jsTrim name
  if trimmedName.length < 2 then
    Except.error "Name must be at least 2 characters"
  else if trimmedName.length > 20 then
    Except.error "Name must be 20 characters or less"
  else
    Except.ok trimmedName

/-- Session state of the App component (src/src/App.tsx lines 319-338):
playerName null = logged out, otherwise logged in. -/
inductive Session where
  | loggedOut
  | loggedIn (playerName : String)
deriving DecidableEq, Repr

/-- Submitting the login form: LoginPage.handleSubmit wired to
App.handleLogin (src/src/App.tsx lines 30-42 and 324-327).  Returns the
new session state and the validation error message, if any. -/
def submitLogin (s : Session) (name : String) : Session × Option String :=
  match handleSubmit name with
  | Except.ok trimmedName => (Session.loggedIn trimmedName, none)
  | Except.error msg => (s, some msg)

/-- Exact half-up rounding of a rational: the idealized semantics of JS
Math.round. -/
def mathRound (x : ℚ) : ℤ :=
  ⌊x + 1 / 2⌋

/-- The derived winRate (src/src/App.tsx lines 158-160):
stats and stats.total > 0 ? Math.round((stats.wins / stats.total) * 100) : 0. -/
def winRate (stats : Option PlayerStats) : ℤ :=
  match stats with
  | some s => if 0 < s.total then mathRound ((s.wins : ℚ) / (s.total : ℚ) * 100) else 0
  | none => 0

/-- The browser localStorage modelled as an association list of key-value
pairs; the most recently written binding for a key shadows older ones. -/
abbrev Store := List (String × String)

/-- localStorage.getItem: the most recently written value for the key, or
none. -/
def getItem : Store → String → Option String
  | [], _ => none
  | (k, v) :: rest, key => if k = key then some v else getItem rest key

/-- localStorage.setItem: write a binding; it shadows any earlier binding
for the same key. -/
def setItem (store : Store) (key value : String) : Store :=
  (key, value) :: store

/-- The playerId initializer of GamePage (src/src/App.tsx lines 90-98):
read the identifier stored under the per-name key; when absent (the JS
falsiness test also treats an empty string as absent) generate a fresh
identifier and persist it under that key.  The fresh identifier produced
by crypto.randomUUID is injected as an argument. -/
def getOrCreateIdentity (fresh : String) (store : Store) (playerName : String) :
    String × Store :=
  let key := "rps-player-id-" ++ playerName
  match getItem store key with
  | some id => if id = "" then (fresh, setItem store key fresh) else (id, store)
  | none => (fresh, setItem store key fresh)

/-- The triple stored into lastResult (src/src/App.tsx lines 100-104). -/
structure PlayOutcome where
  playerChoice : Choice
  aiChoice : Choice
  result : Result
deriving DecidableEq, Repr

/-- The view state of GamePage (src/src/App.tsx lines 99-109). -/
structure GameState where
  isPlaying : Bool
  lastResult : Option PlayOutcome
  history : List GameRecord
  stats : Option PlayerStats
  showAnimation : Bool
  error : Option String
  isLoading : Bool
deriving DecidableEq, Repr

/-- GamePage.loadData (src/src/App.tsx lines 111-124): getHistory and
getStats are jointly awaited via Promise.all, so the fetch oracle either
delivers both results or fails as a whole; a failure is only logged (the
catch block) and in every case isLoading is cleared (the finally block). -/
def loadData (fetch : Option (List GameRecord × PlayerStats)) (s : GameState) :
    GameState :=
  match fetch with
  | some (historyData, statsData) =>
      { s with history := historyData, stats := some statsData, isLoading := false }
  | none => { s with isLoading := false }

/-- The synchronous prefix of GamePage.handlePlay after the re-entry guard
(src/src/App.tsx lines 133-136): enter the animating state and clear the
prior result and error. -/
def playEntry (s : GameState) : GameState :=
  { s with isPlaying := true, showAnimation := true, lastResult := none, error := none }

/-- The finally block of GamePage.handlePlay (src/src/App.tsx lines
152-155): leave the animating state. -/
def playSettle (s : GameState) : GameState :=
  { s with isPlaying := false, showAnimation := false }

/-- GamePage.handlePlay (src/src/App.tsx lines 130-156).  The playGame
call is an oracle from the chosen move to either a response or a thrown
error; the joint history/stats refresh is the fetch oracle.  Returns the
final state together with the number of playGame calls and the number of
loadData refreshes performed.  The 800ms pacing delay changes no state and
is not represented. -/
def handlePlay (play : Choice → Except Unit PlayResponse)
    (fetch : Option (List GameRecord × PlayerStats)) (choice : Choice)
    (s : GameState) : GameState × Nat × Nat :=
  if s.isPlaying then (s, 0, 0)
  else
    let s1 := playEntry s
    match play choice with
    | Except.ok response =>
        let s2 := { s1 with
          lastResult := some ⟨response.playerChoice, response.aiChoice, response.result⟩ }
        (playSettle (loadData fetch s2), 1, 1)
    | Except.error _ =>
        (playSettle { s1 with error := some "Connection failed. Please try again." }, 1, 0)

/-! Concrete sample values used by the witnesses. -/

/-- A sample game record as the remote service would produce it. -/
def sampleRecord : GameRecord :=
  ⟨none, "pid-1", "Alice", Choice.rock, Choice.scissors, Result.win, "t0", "R", "S"⟩

/-- A sample successful play response: rock beats scissors, win. -/
def sampleResponse : PlayResponse :=
  ⟨true, Choice.rock, Choice.scissors, Result.win, sampleRecord⟩

/-- The idle view state right after GamePage mounts. -/
def idleState : GameState :=
  ⟨false, none, [], none, false, none, true⟩

/-- A view state in the middle of a play attempt. -/
def busyState : GameState :=
  { idleState with isPlaying := true }

/-- A view state that already holds loaded history and stats. -/
def loadedState : GameState :=
  ⟨false, none, [sampleRecord], some ⟨1, 0, 0, 1⟩, false, none, false⟩

/-- A view state displaying the outcome of an earlier round. -/
def resolvedState : GameState :=
  ⟨false, some ⟨Choice.paper, Choice.rock, Result.lose⟩, [sampleRecord],
    some ⟨1, 2, 0, 3⟩, false, none, false⟩

/-- A playGame oracle that always succeeds with sampleResponse. -/
def okPlay : Choice → Except Unit PlayResponse :=
  fun _ => Except.ok sampleResponse

/-- A playGame oracle that always throws. -/
def failPlay : Choice → Except Unit PlayResponse :=
  fun _ => Except.error ()

/-! Theorems for the claims. -/

/-- C1: for every input name whose trimmed length is between 2 and 20
inclusive, submitting the login form moves the session from logged-out to
logged-in with the trimmed name and no validation message; for every name
whose trimmed length is below 2 or above 20 the attempt is rejected with a
validation message and the session state (whatever it was) is unchanged. -/
theorem login_validates_name (name : String) :
    (2 ≤ (jsTrim name).length → (jsTrim name).length ≤ 20 →
      submitLogin Session.loggedOut name = (Session.loggedIn (jsTrim name), none)) ∧
    ((jsTrim name).length < 2 ∨ 20 < (jsTrim name).length →
      ∀ s : Session, (submitLogin s name).1 = s ∧
        ∃ msg, (submitLogin s name).2 = some msg) := by
  constructor
  · intro h2 h20
    simp only [submitLogin, handleSubmit]
    rw [if_neg (by omega), if_neg (by omega)]
  · intro hbad s
    simp only [submitLogin, handleSubmit]
    rcases hbad with h | h
    · rw [if_pos (by omega)]
      exact ⟨rfl, _, rfl⟩
    · rw [if_neg (by omega), if_pos (by omega)]
      exact ⟨rfl, _, rfl⟩

/-- Witness for C1 at the concrete names " Alice " (valid after trimming)
and "x" (too short). -/
theorem login_validates_name_witness :
    (2 ≤ (jsTrim " Alice ").length ∧ (jsTrim " Alice ").length ≤ 20 ∧
      submitLogin Session.loggedOut " Alice " = (Session.loggedIn (jsTrim " Alice "), none)) ∧
    ((jsTrim "x").length < 2 ∧ (submitLogin Session.loggedOut "x").1 = Session.loggedOut) :=
  ⟨⟨by decide, by decide,
      (login_validates_name " Alice ").1 (by decide) (by decide)⟩,
   ⟨by decide,
      (((login_validates_name "x").2 (Or.inl (by decide))) Session.loggedOut).1⟩⟩

/-- C2: when the playGame call fails during a play attempt (entered from
the idle state, so the guard does not reject it), handlePlay leaves the
history and stats fields exactly as they were and sets the user-visible
error to the generic connection-failure message, for every prior view
state and every fetch oracle. -/
theorem play_failure_preserves_history_stats
    (play : Choice → Except Unit PlayResponse)
    (fetch : Option (List GameRecord × PlayerStats)) (choice : Choice)
    (s : GameState) (hidle : s.isPlaying = false)
    (hfail : play choice = Except.error ()) :
    (handlePlay play fetch choice s).1.history = s.history ∧
    (handlePlay play fetch choice s).1.stats = s.stats ∧
    (handlePlay play fetch choice s).1.error =
      some "Connection failed. Please try again." := by
  simp [handlePlay, hidle, hfail, playEntry, playSettle]

/-- Witness for C2: a failing play from the idle state. -/
theorem play_failure_preserves_history_stats_witness :
    idleState.isPlaying = false ∧ failPlay Choice.rock = Except.error () ∧
    ((handlePlay failPlay none Choice.rock idleState).1.history = idleState.history ∧
     (handlePlay failPlay none Choice.rock idleState).1.stats = idleState.stats ∧
     (handlePlay failPlay none Choice.rock idleState).1.error =
       some "Connection failed. Please try again.") :=
  ⟨rfl, rfl,
    play_failure_preserves_history_stats failPlay none Choice.rock idleState rfl rfl⟩

/-- C3: entering a play attempt sets the in-progress flag; invoking the
play action on any in-progress state is a no-op that performs zero
playGame calls and changes no state; and a full play attempt from the idle
state performs exactly one playGame call. -/
theorem play_reentry_guard
    (play play2 : Choice → Except Unit PlayResponse)
    (fetch fetch2 : Option (List GameRecord × PlayerStats))
    (choice choice2 : Choice) (s : GameState) (hidle : s.isPlaying = false) :
    (playEntry s).isPlaying = true ∧
    (∀ t : GameState, t.isPlaying = true →
      handlePlay play2 fetch2 choice2 t = (t, 0, 0)) ∧
    (handlePlay play fetch choice s).2.1 = 1 := by
  refine ⟨rfl, fun t ht => by simp [handlePlay, ht], ?_⟩
  rcases h : play choice with resp | e <;>
    simp [handlePlay, hidle, h]

/-- Witness for C3: the second invocation hits the guard on busyState and
is the identity with zero calls, while the first attempt from idleState
performs one playGame call. -/
theorem play_reentry_guard_witness :
    idleState.isPlaying = false ∧
    (playEntry idleState).isPlaying = true ∧
    handlePlay okPlay none Choice.paper busyState = (busyState, 0, 0) ∧
    (handlePlay okPlay none Choice.rock idleState).2.1 = 1 := by
  have h := play_reentry_guard okPlay okPlay none none Choice.rock Choice.paper
    idleState rfl
  exact ⟨rfl, h.1, h.2.1 busyState rfl, h.2.2⟩

/-- Floor of an integer quotient in the rationals equals Euclidean integer
division, for a positive divisor. -/
theorem floor_int_div (a b : ℤ) (hb : 0 < b) : ⌊(a : ℚ) / (b : ℚ)⌋ = a / b := by
  have hd : ((b.toNat : ℕ) : ℚ) = (b : ℚ) := by
    rw [← Int.cast_natCast, Int.toNat_of_nonneg hb.le]
  calc ⌊(a : ℚ) / (b : ℚ)⌋ = ⌊(a : ℚ) / ((b.toNat : ℕ) : ℚ)⌋ := by rw [hd]
    _ = a / (b.toNat : ℤ) := Rat.floor_intCast_div_natCast a b.toNat
    _ = a / b := by rw [Int.toNat_of_nonneg hb.le]

/-- C4: the derived winRate is 0 when the stats are absent or total is not
positive, equals the half-up rounding of wins / total * 100 when total is
positive — expressed by the independent integer formula
(200 * wins + total) / (2 * total) — and equals 60 at the concrete stats
value with wins 3, losses 1, draws 1, total 5. -/
theorem winRate_formula :
    winRate (some ⟨3, 1, 1, 5⟩) = 60 ∧
    winRate none = 0 ∧
    (∀ st : PlayerStats, ¬ 0 < st.total → winRate (some st) = 0) ∧
    (∀ st : PlayerStats, 0 < st.total →
      winRate (some st) = (200 * st.wins + st.total) / (2 * st.total)) := by
  refine ⟨by norm_num [winRate, mathRound], rfl,
    fun st h => by simp [winRate, h], fun st h => ?_⟩
  have ht : ((st.total : ℚ)) ≠ 0 := Int.cast_ne_zero.mpr h.ne'
  have hq : (st.wins : ℚ) / (st.total : ℚ) * 100 + 1 / 2
      = ((200 * st.wins + st.total : ℤ) : ℚ) / ((2 * st.total : ℤ) : ℚ) := by
    push_cast
    field_simp
    ring
  simp only [winRate, mathRound, if_pos h]
  rw [hq, floor_int_div _ _ (by omega)]

/-- Witness for C4 at total 0 and at the concrete stats 3/1/1/5. -/
theorem winRate_formula_witness :
    (¬ (0 : ℤ) < (PlayerStats.mk 1 2 3 0).total ∧
      winRate (some (PlayerStats.mk 1 2 3 0)) = 0) ∧
    ((0 : ℤ) < (PlayerStats.mk 3 1 1 5).total ∧
      winRate (some (PlayerStats.mk 3 1 1 5)) =
        (200 * (PlayerStats.mk 3 1 1 5).wins + (PlayerStats.mk 3 1 1 5).total) /
          (2 * (PlayerStats.mk 3 1 1 5).total)) :=
  ⟨⟨by decide, winRate_formula.2.2.1 (PlayerStats.mk 1 2 3 0) (by decide)⟩,
   ⟨by decide, winRate_formula.2.2.2 (PlayerStats.mk 3 1 1 5) (by decide)⟩⟩

/-- C5 counterexample: the claim that winRate always lies in the interval
from 0 to 100 fails on the unvalidated stats value with wins 10 and total
5, where winRate is 200. -/
theorem winRate_bound_counterexample :
    winRate (some ⟨10, 0, 0, 5⟩) = 200 ∧
    ¬ winRate (some ⟨10, 0, 0, 5⟩) ≤ 100 := by
  have h : winRate (some ⟨10, 0, 0, 5⟩) = 200 := by
    norm_num [winRate, mathRound]
  exact ⟨h, by rw [h]; decide⟩

/-- C5 amended: winRate is 0 whenever total is 0 (for every stats value),
and it lies between 0 and 100 for every stats value whose wins counter is
between 0 and total — the shape every genuine server response has; without
that restriction the unchecked response can drive it outside the range. -/
theorem winRate_bounded (st : PlayerStats) :
    (st.total = 0 → winRate (some st) = 0) ∧
    (0 ≤ st.wins → st.wins ≤ st.total →
      0 ≤ winRate (some st) ∧ winRate (some st) ≤ 100) := by
  constructor
  · intro h0
    simp [winRate, h0]
  · intro hw hwt
    by_cases ht : 0 < st.total
    · have htq : (0 : ℚ) < (st.total : ℚ) := by exact_mod_cast ht
      have hq0 : (0 : ℚ) ≤ (st.wins : ℚ) / (st.total : ℚ) * 100 := by
        have : (0 : ℚ) ≤ (st.wins : ℚ) := by exact_mod_cast hw
        positivity
      have hq100 : (st.wins : ℚ) / (st.total : ℚ) * 100 ≤ 100 := by
        have h1 : (st.wins : ℚ) / (st.total : ℚ) ≤ 1 :=
          (div_le_one htq).mpr (by exact_mod_cast hwt)
        nlinarith
      simp only [winRate, mathRound, if_pos ht]
      constructor
      · exact Int.le_floor.mpr (by push_cast; linarith)
      · have : ⌊(st.wins : ℚ) / (st.total : ℚ) * 100 + 1 / 2⌋ < 101 :=
          Int.floor_lt.mpr (by push_cast; linarith)
        omega
    · simp [winRate, ht]

/-- Witness for C5's amended theorem at the concrete stats 3/1/1/5 and at
a zero-total stats value. -/
theorem winRate_bounded_witness :
    ((PlayerStats.mk 0 0 0 0).total = 0 ∧
      winRate (some (PlayerStats.mk 0 0 0 0)) = 0) ∧
    ((0 : ℤ) ≤ (PlayerStats.mk 3 1 1 5).wins ∧
      (PlayerStats.mk 3 1 1 5).wins ≤ (PlayerStats.mk 3 1 1 5).total ∧
      0 ≤ winRate (some (PlayerStats.mk 3 1 1 5)) ∧
      winRate (some (PlayerStats.mk 3 1 1 5)) ≤ 100) :=
  ⟨⟨rfl, (winRate_bounded (PlayerStats.mk 0 0 0 0)).1 rfl⟩,
   ⟨by decide, by decide,
     (winRate_bounded (PlayerStats.mk 3 1 1 5)).2 (by decide) (by decide)⟩⟩

/-- C6: the identity initializer is idempotent.  For every storage state
and every player name, running it a second time (with any second fresh
identifier) returns the same identifier and leaves the store exactly as
the first run left it; and when a non-empty identifier is already stored
for the name it is returned unchanged with the store untouched.  The
hypothesis that the fresh identifier is non-empty reflects that
crypto.randomUUID never returns an empty string (the JS falsiness test
would otherwise treat the stored value as absent). -/
theorem getOrCreateIdentity_idempotent (fresh fresh2 id playerName : String)
    (store : Store) (hfresh : fresh ≠ "") :
    (getOrCreateIdentity fresh2 (getOrCreateIdentity fresh store playerName).2 playerName
      = getOrCreateIdentity fresh store playerName) ∧
    (getItem store ("rps-player-id-" ++ playerName) = some id → id ≠ "" →
      getOrCreateIdentity fresh store playerName = (id, store)) := by
  constructor
  · rcases h : getItem store ("rps-player-id-" ++ playerName) with _ | v
    · simp [getOrCreateIdentity, h, setItem, getItem, hfresh]
    · by_cases hv : v = ""
      · simp [getOrCreateIdentity, h, hv, setItem, getItem, hfresh]
      · simp [getOrCreateIdentity, h, hv]
  · intro h hid
    simp [getOrCreateIdentity, h, hid]

/-- Witness for C6: a fresh creation on the empty store followed by a
re-run, and a read of an existing binding. -/
theorem getOrCreateIdentity_idempotent_witness :
    ("uuid-1" : String) ≠ "" ∧
    (getOrCreateIdentity "uuid-2"
        (getOrCreateIdentity "uuid-1" [] "Alice").2 "Alice"
      = getOrCreateIdentity "uuid-1" [] "Alice") ∧
    (getItem [("rps-player-id-Alice", "uuid-0")] ("rps-player-id-" ++ "Alice")
        = some "uuid-0" ∧ ("uuid-0" : String) ≠ "" ∧
      getOrCreateIdentity "uuid-1" [("rps-player-id-Alice", "uuid-0")] "Alice"
        = ("uuid-0", [("rps-player-id-Alice", "uuid-0")])) :=
  ⟨by decide,
   (getOrCreateIdentity_idempotent "uuid-1" "uuid-2" "uuid-0" "Alice" [] (by decide)).1,
   by decide, by decide,
   (getOrCreateIdentity_idempotent "uuid-1" "uuid-2" "uuid-0" "Alice"
      [("rps-player-id-Alice", "uuid-0")] (by decide)).2 (by decide) (by decide)⟩

/-- C9: the identity store is keyed per player name.  For two distinct
names, creating or reading the identity of the first leaves the binding
stored for the second untouched, and the identifier the second name
obtains is the same whether or not the first name was processed before. -/
theorem identity_store_per_name (fresh fresh2 n1 n2 : String) (store : Store)
    (hne : n1 ≠ n2) :
    getItem (getOrCreateIdentity fresh store n1).2 ("rps-player-id-" ++ n2)
      = getItem store ("rps-player-id-" ++ n2) ∧
    (getOrCreateIdentity fresh2 (getOrCreateIdentity fresh store n1).2 n2).1
      = (getOrCreateIdentity fresh2 store n2).1 := by
  have hkey : "rps-player-id-" ++ n1 ≠ "rps-player-id-" ++ n2 := by
    intro hab
    apply hne
    have hdata : ("rps-player-id-" ++ n1).data = ("rps-player-id-" ++ n2).data := by
      rw [hab]
    simp only [String.data_append] at hdata
    exact String.ext (List.append_cancel_left hdata)
  have hframe : getItem (getOrCreateIdentity fresh store n1).2 ("rps-player-id-" ++ n2)
      = getItem store ("rps-player-id-" ++ n2) := by
    rcases h : getItem store ("rps-player-id-" ++ n1) with _ | v
    · simp [getOrCreateIdentity, h, setItem, getItem, hkey]
    · by_cases hv : v = ""
      · simp [getOrCreateIdentity, h, hv, setItem, getItem, hkey]
      · simp [getOrCreateIdentity, h, hv]
  refine ⟨hframe, ?_⟩
  generalize (getOrCreateIdentity fresh store n1).2 = st1 at hframe ⊢
  simp only [getOrCreateIdentity, hframe]
  rcases h2 : getItem store ("rps-player-id-" ++ n2) with _ | v
  · simp [h2]
  · by_cases hv : v = "" <;> simp [h2, hv]

/-- Witness for C9: creating an identity for Alice does not disturb Bob's
stored identity, and Bob obtains the same identifier either way. -/
theorem identity_store_per_name_witness :
    ("Alice" : String) ≠ "Bob" ∧
    (getItem (getOrCreateIdentity "uuid-1" [("rps-player-id-Bob", "uuid-b")] "Alice").2
        ("rps-player-id-" ++ "Bob")
      = getItem [("rps-player-id-Bob", "uuid-b")] ("rps-player-id-" ++ "Bob") ∧
    (getOrCreateIdentity "uuid-2"
        (getOrCreateIdentity "uuid-1" [("rps-player-id-Bob", "uuid-b")] "Alice").2 "Bob").1
      = (getOrCreateIdentity "uuid-2" [("rps-player-id-Bob", "uuid-b")] "Bob").1) :=
  ⟨by decide,
   identity_store_per_name "uuid-1" "uuid-2" "Alice" "Bob"
     [("rps-player-id-Bob", "uuid-b")] (by decide)⟩

/-- C7: on a successful playGame response entered from the idle state,
handlePlay stores exactly the response's choice/choice/result triple as
the displayed result — whatever triple the server sent, with no
client-side recomputation — performs exactly one joint history/stats
refresh, and the label rendered for a win result is "You Win!". -/
theorem play_success_stores_response
    (play : Choice → Except Unit PlayResponse)
    (fetch : Option (List GameRecord × PlayerStats)) (choice : Choice)
    (s : GameState) (resp : PlayResponse)
    (hidle : s.isPlaying = false) (hok : play choice = Except.ok resp) :
    (handlePlay play fetch choice s).1.lastResult
      = some ⟨resp.playerChoice, resp.aiChoice, resp.result⟩ ∧
    (handlePlay play fetch choice s).2.2 = 1 ∧
    RESULT_LABELS Result.win = "You Win!" := by
  rcases fetch with _ | ⟨h, st⟩ <;>
    simp [handlePlay, hidle, hok, playEntry, playSettle, loadData, RESULT_LABELS]

/-- Witness for C7: the sample win response from the idle state. -/
theorem play_success_stores_response_witness :
    idleState.isPlaying = false ∧
    okPlay Choice.rock = Except.ok sampleResponse ∧
    ((handlePlay okPlay (some ([], ⟨0, 0, 0, 0⟩)) Choice.rock idleState).1.lastResult
       = some ⟨sampleResponse.playerChoice, sampleResponse.aiChoice, sampleResponse.result⟩ ∧
     (handlePlay okPlay (some ([], ⟨0, 0, 0, 0⟩)) Choice.rock idleState).2.2 = 1 ∧
     RESULT_LABELS Result.win = "You Win!") :=
  ⟨rfl, rfl,
    play_success_stores_response okPlay (some ([], ⟨0, 0, 0, 0⟩)) Choice.rock
      idleState sampleResponse rfl rfl⟩

/-- C8: when playGame succeeds but the joint history/stats refresh fails
(the fetch oracle delivers nothing), the failure is swallowed: the
connection-failure message is not set, the stored play result keeps the
response triple, and history and stats keep their prior values. -/
theorem refresh_failure_swallowed
    (play : Choice → Except Unit PlayResponse) (choice : Choice)
    (s : GameState) (resp : PlayResponse)
    (hidle : s.isPlaying = false) (hok : play choice = Except.ok resp) :
    (handlePlay play none choice s).1.error = none ∧
    (handlePlay play none choice s).1.lastResult
      = some ⟨resp.playerChoice, resp.aiChoice, resp.result⟩ ∧
    (handlePlay play none choice s).1.history = s.history ∧
    (handlePlay play none choice s).1.stats = s.stats := by
  simp [handlePlay, hidle, hok, playEntry, playSettle, loadData]

/-- Witness for C8: a successful play whose refresh fails, from a state
that already holds history and stats. -/
theorem refresh_failure_swallowed_witness :
    loadedState.isPlaying = false ∧
    okPlay Choice.rock = Except.ok sampleResponse ∧
    ((handlePlay okPlay none Choice.rock loadedState).1.error = none ∧
     (handlePlay okPlay none Choice.rock loadedState).1.lastResult
       = some ⟨sampleResponse.playerChoice, sampleResponse.aiChoice, sampleResponse.result⟩ ∧
     (handlePlay okPlay none Choice.rock loadedState).1.history
       = loadedState.history ∧
     (handlePlay okPlay none Choice.rock loadedState).1.stats
       = loadedState.stats) :=
  ⟨rfl, rfl,
    refresh_failure_swallowed okPlay Choice.rock loadedState sampleResponse rfl rfl⟩

/-- C10: every play attempt clears the previously displayed outcome at its
start, and after a failed playGame the prior outcome is not restored: the
stored last result is empty, only the failure message is set, and history
and stats keep their prior values. -/
theorem play_clears_prior_outcome
    (play : Choice → Except Unit PlayResponse)
    (fetch : Option (List GameRecord × PlayerStats)) (choice : Choice)
    (s : GameState) (hidle : s.isPlaying = false)
    (hfail : play choice = Except.error ()) :
    (∀ t : GameState, (playEntry t).lastResult = none) ∧
    (handlePlay play fetch choice s).1.lastResult = none ∧
    (handlePlay play fetch choice s).1.error =
      some "Connection failed. Please try again." ∧
    (handlePlay play fetch choice s).1.history = s.history ∧
    (handlePlay play fetch choice s).1.stats = s.stats := by
  refine ⟨fun t => rfl, ?_⟩
  simp [handlePlay, hidle, hfail, playEntry, playSettle]

/-- Witness for C10: a failed play from a state that holds a previously
displayed outcome. -/
theorem play_clears_prior_outcome_witness :
    resolvedState.isPlaying = false ∧
    failPlay Choice.scissors = Except.error () ∧
    ((playEntry resolvedState).lastResult = none ∧
     (handlePlay failPlay none Choice.scissors resolvedState).1.lastResult = none ∧
     (handlePlay failPlay none Choice.scissors resolvedState).1.error =
       some "Connection failed. Please try again." ∧
     (handlePlay failPlay none Choice.scissors resolvedState).1.history
       = resolvedState.history ∧
     (handlePlay failPlay none Choice.scissors resolvedState).1.stats
       = resolvedState.stats) :=
  ⟨rfl, rfl,
    have h := play_clears_prior_outcome failPlay none Choice.scissors
      resolvedState rfl rfl
    ⟨h.1 resolvedState, h.2⟩⟩

end RPS
